import Mathlib

/-!
# Verification of the traffic-capture pipeline (`src/scripts/traffic-capture.py`)

A shallow embedding of the pipeline: the flow-line parser (the three
regular-expression extractions in `capture_traffic`), the two static
lookup tables (`SERVICE_SIGNATURES`, `ACTIVITY_CATEGORIES`), the
classifier (`identify_service`, `categorize_activity`), the aggregation
and the summary builder (`summarize_traffic`).

Modelling conventions:
* Python strings are Lean `String`s; substring tests (`x in y`) are
  `strContains`; `str.startswith` is `String.isPrefixOf`.
* Python `dict` literals are embedded as the literal declaration-order
  list of pairs, folded through `dictInsertStr`, which reproduces CPython
  semantics: inserting an existing key updates the value in place and
  keeps the key's original position, a new key is appended.  This matters
  because `SERVICE_SIGNATURES` in the source declares the key "52." twice
  with different values.
* `re.search` for the three concrete patterns used by the source is
  implemented directly as a leftmost search.  For these patterns greedy
  matching never backtracks across the character classes involved
  (the classes `[a-f0-9:.]`, `\s` and `\d` are pairwise disjoint and none
  contains the arrow or the protocol letters), so "maximal run at the
  first viable position" is exactly the Python match.
* The `generated_at` timestamp field is omitted from `TrafficSummary`
  (wall-clock nondeterminism, asserted by no claim).
* Percentages: the source computes `bytes / total * 100` in binary
  floating point and renders it with `f"{pct:.0f}"`, which rounds half to
  even.  `formatPct` performs round-half-to-even on the exact rational
  `100*bytes/total`; this coincides with the source whenever the ratio is
  exactly representable (all concrete inputs below are chosen so).
-/

namespace TrafficCapture

/-! ## Flow records -/

/-- The record built for each accepted line in `capture_traffic`
(`{"src_ip": ..., "dst_ip": ..., "dst_port": ..., "protocol": ..., "size": ...}`). -/
structure FlowRecord where
  src_ip : String
  dst_ip : String
  dst_port : Nat
  protocol : String
  size : Nat
deriving Repr, DecidableEq

/-! ## Character classes and string helpers -/

/-- The character class `[a-f0-9:.]` of the address-pair pattern. -/
def isAddrChar (c : Char) : Bool :=
  (('a' ≤ c && c ≤ 'f') || ('0' ≤ c && c ≤ '9')) || c = ':' || c = '.'

/-- Python `\s` on the ASCII range (space, tab, newline, carriage return,
vertical tab, form feed); tshark output is ASCII. -/
def isSpaceChar (c : Char) : Bool :=
  c = ' ' || c = '\t' || c = '\n' || c = '\r' || c = Char.ofNat 11 || c = Char.ofNat 12

/-- `\d`. -/
def isDigitChar (c : Char) : Bool :=
  '0' ≤ c && c ≤ '9'

def skipSpaces (l : List Char) : List Char :=
  l.dropWhile isSpaceChar

/-- Python `int` on a nonempty digit string. -/
def digitsToNat (l : List Char) : Nat :=
  l.foldl (fun acc c => acc * 10 + (c.toNat - 48)) 0

/-- `needle.isPrefixOf hay` on character lists. -/
def listIsPrefix : List Char → List Char → Bool
  | [], _ => true
  | _ :: _, [] => false
  | a :: as, b :: bs => a = b && listIsPrefix as bs

def strContainsAux (needle : List Char) : List Char → Bool
  | [] => listIsPrefix needle []
  | c :: cs => listIsPrefix needle (c :: cs) || strContainsAux needle cs

/-- Python's substring test `sub in s`. -/
def strContains (s sub : String) : Bool :=
  strContainsAux sub.data s.data

/-- ASCII lowercasing of one character.  Every address the capture
facility prints and every table entry is ASCII, where Python's
`str.lower` is exactly this map. -/
def charLower (c : Char) : Char :=
  if 'A' ≤ c && c ≤ 'Z' then Char.ofNat (c.toNat + 32) else c

/-- `str.lower()` on ASCII text. -/
def strToLower (s : String) : String :=
  String.mk (s.data.map charLower)

/-! ## The three regular-expression searches of `capture_traffic` -/

/-- Attempt of `([a-f0-9:.]+)\s*→\s*([a-f0-9:.]+)` anchored at the head of `l`,
returning the two captured groups. -/
def matchAddrPairAt (l : List Char) : Option (String × String) :=
  let run1 := l.takeWhile isAddrChar
  if run1.isEmpty then none
  else
    match skipSpaces (l.dropWhile isAddrChar) with
    | '→' :: rest =>
      let run2 := (skipSpaces rest).takeWhile isAddrChar
      if run2.isEmpty then none
      else some (String.mk run1, String.mk run2)
    | _ => none

/-- `re.search(r"([a-f0-9:.]+)\s*→\s*([a-f0-9:.]+)", line)`: leftmost match. -/
def searchAddrPair : List Char → Option (String × String)
  | [] => none
  | c :: cs =>
    match matchAddrPairAt (c :: cs) with
    | some r => some r
    | none => searchAddrPair cs

/-- The alternation `(TCP|UDP|SSL|TLS|HTTP|QUIC)`, in source order; the
six literals are pairwise non-prefixes of one another, so at most one can
match at a given position. -/
def protoTokens : List String :=
  ["TCP", "UDP", "SSL", "TLS", "HTTP", "QUIC"]

/-- Attempt of `(TCP|UDP|SSL|TLS|HTTP|QUIC)\s+(\d+)` anchored at the head of `l`. -/
def matchProtoSizeAt (l : List Char) : Option (String × Nat) :=
  match protoTokens.find? (fun t => listIsPrefix t.data l) with
  | none => none
  | some t =>
    let rest := l.drop t.length
    match rest with
    | [] => none
    | c :: _ =>
      if isSpaceChar c then
        let digits := (skipSpaces rest).takeWhile isDigitChar
        if digits.isEmpty then none else some (t, digitsToNat digits)
      else none

/-- `re.search(r"(TCP|UDP|SSL|TLS|HTTP|QUIC)\s+(\d+)", line)`: leftmost match. -/
def searchProtoSize : List Char → Option (String × Nat)
  | [] => none
  | c :: cs =>
    match matchProtoSizeAt (c :: cs) with
    | some r => some r
    | none => searchProtoSize cs

/-- Attempt of `→\s*(\d+)` anchored at the head of `l`. -/
def matchPortAt : List Char → Option Nat
  | '→' :: rest =>
    let digits := (skipSpaces rest).takeWhile isDigitChar
    if digits.isEmpty then none else some (digitsToNat digits)
  | _ => none

/-- `re.search(r"→\s*(\d+)", line)`: leftmost match.  Note that this scans
the whole line from its start, so the first arrow of the line — the one
between the source and destination addresses — is examined first. -/
def searchPort : List Char → Option Nat
  | [] => none
  | c :: cs =>
    match matchPortAt (c :: cs) with
    | some r => some r
    | none => searchPort cs

/-- The per-line body of the `for line in proc.stdout` loop: mandatory
address pair, mandatory protocol tag + size, opportunistic port
(default 0).  `none` models the line being skipped. -/
def parse_line (line : String) : Option FlowRecord :=
  match searchAddrPair line.data with
  | none => none
  | some (src, dst) =>
    match searchProtoSize line.data with
    | none => none
    | some (proto, size) =>
      some ⟨src, dst, (searchPort line.data).getD 0, proto, size⟩

/-! ## The static tables -/

/-- CPython dict-literal insertion: an existing key is updated in place
(position kept), a new key appended. -/
def dictInsertStr (m : List (String × String)) (k v : String) : List (String × String) :=
  if m.any (fun e => e.1 = k) then m.map (fun e => if e.1 = k then (k, v) else e)
  else m ++ [(k, v)]

/-- The `SERVICE_SIGNATURES` dict literal exactly as written in the source,
entry by entry in declaration order — including the repeated "142.250."
key (same value both times) and the "52." key declared twice with
different values. -/
def SERVICE_SIGNATURES_decl : List (String × String) :=
  [("face:b00c", "Meta (Facebook/Instagram/WhatsApp)"),
   ("157.240.", "Meta (Facebook/Instagram/WhatsApp)"),
   ("31.13.", "Meta (Facebook/Instagram/WhatsApp)"),
   ("69.63.", "Meta (Facebook)"),
   ("69.171.", "Meta (Facebook)"),
   ("142.250.", "Google"),
   ("172.217.", "Google"),
   ("216.58.", "Google"),
   ("142.250.", "Google"),
   ("2a00:1450:", "Google (IPv6)"),
   ("1.1.1.1", "Cloudflare DNS"),
   ("1.0.0.1", "Cloudflare DNS"),
   ("104.16.", "Cloudflare"),
   ("104.24.", "Cloudflare"),
   ("2606:4700:", "Cloudflare (IPv6)"),
   ("17.", "Apple"),
   ("2620:149:", "Apple (IPv6)"),
   ("20.", "Microsoft"),
   ("40.", "Microsoft/Azure"),
   ("52.", "Microsoft/Azure"),
   ("2a01:111:", "Microsoft (IPv6)"),
   ("3.", "Amazon AWS"),
   ("54.", "Amazon AWS"),
   ("52.", "Amazon AWS (shared with MS)"),
   ("140.82.", "GitHub"),
   ("104.244.", "Twitter/X"),
   ("162.159.", "Discord"),
   ("188.114.", "Discord/Cloudflare"),
   ("149.154.", "Telegram"),
   ("91.108.", "Telegram"),
   ("13.107.", "Signal/Microsoft"),
   ("23.246.", "Netflix"),
   ("45.57.", "Netflix"),
   ("35.186.", "Spotify/Google"),
   ("104.18.", "OpenAI (Cloudflare)")]

/-- The dict the interpreter actually builds from the literal: iteration
order is first-occurrence order of each key, the stored value is the
last-declared one. -/
def SERVICE_SIGNATURES : List (String × String) :=
  SERVICE_SIGNATURES_decl.foldl (fun m e => dictInsertStr m e.1 e.2) []

/-- `ACTIVITY_CATEGORIES` (a dict with no repeated keys: iteration order
is declaration order). -/
def ACTIVITY_CATEGORIES : List (String × List String) :=
  [("social", ["meta", "facebook", "instagram", "whatsapp", "twitter",
               "tiktok", "snapchat", "linkedin"]),
   ("communication", ["whatsapp", "telegram", "signal", "discord", "slack",
                      "messenger", "gmail", "outlook"]),
   ("search", ["google", "bing", "duckduckgo"]),
   ("development", ["github", "gitlab", "bitbucket", "stackoverflow", "npmjs", "pypi"]),
   ("ai", ["openai", "anthropic", "claude", "chatgpt", "perplexity", "gemini", "copilot"]),
   ("media", ["youtube", "netflix", "spotify", "twitch", "plex", "soundcloud"]),
   ("cloud", ["cloudflare", "aws", "azure", "gcp", "digitalocean", "amazon"]),
   ("apple", ["apple", "icloud", "itunes"]),
   ("microsoft", ["microsoft", "office", "outlook", "teams"])]

/-! ## Classifier -/

/-- `identify_service`: lowercase the address, scan the signature dict in
iteration order, return the first service whose pattern is a substring. -/
def identify_service (ip : String) : Option String :=
  (SERVICE_SIGNATURES.find? (fun e => strContains (strToLower ip) e.1)).map (fun e => e.2)

/-- `categorize_activity`: lowercase the service name, return the first
category one of whose keywords is a substring, defaulting to "other". -/
def categorize_activity (service : String) : String :=
  match ACTIVITY_CATEGORIES.find? (fun e => e.2.any (fun kw => strContains (strToLower service) kw)) with
  | some e => e.1
  | none => "other"

/-! ## Aggregation (`summarize_traffic`, grouping phase) -/

/-- One value of the `ip_stats` defaultdict: `{"packets": 0, "bytes": 0, "ports": set()}`.
The port set is kept as an insertion-ordered duplicate-free list; the only
observation of it is `sorted(list(ports))`, for which the internal order
is irrelevant. -/
structure DestStats where
  packets : Nat
  bytes : Nat
  ports : List Nat
deriving Repr, DecidableEq

/-- `set.add`: duplicate ports collapse. -/
def addPort (ps : List Nat) (p : Nat) : List Nat :=
  if ps.contains p then ps else ps ++ [p]

/-- Whether the packet's source address lies in the recognized outbound
space: `pkt["src_ip"].startswith("fd42:42:42:") or pkt["src_ip"].startswith("10.66.66.")`. -/
def is_outbound (src : String) : Bool :=
  listIsPrefix "fd42:42:42:".data src.data || listIsPrefix "10.66.66.".data src.data

/-- The three mutations applied to `ip_stats[dst]` for one accepted packet,
on the insertion-ordered association list that models the defaultdict. -/
def updateStats (m : List (String × DestStats)) (dst : String) (size port : Nat) :
    List (String × DestStats) :=
  if m.any (fun e => e.1 = dst) then
    m.map (fun e => if e.1 = dst then (dst, ⟨e.2.packets + 1, e.2.bytes + size, addPort e.2.ports port⟩) else e)
  else m ++ [(dst, ⟨1, size, [port]⟩)]

/-- The `for pkt in packets` grouping loop of `summarize_traffic`: only
outbound packets are folded in. -/
def aggregate (packets : List FlowRecord) : List (String × DestStats) :=
  packets.foldl
    (fun m pkt => if is_outbound pkt.src_ip then updateStats m pkt.dst_ip pkt.size pkt.dst_port else m)
    []

/-! ## Stable sorting

Python's `sorted` is a stable sort; `stableSort le` is a stable insertion
sort in which `le y x` means "`y`, already placed, may stay in front of the
newcomer `x`".  For a total preorder this produces the unique stable
sorted arrangement, hence agrees with `sorted`; `reverse=True` with key
`k` is `le y x := k x ≤ k y` (ties keep original order, as CPython
documents). -/

def insertSorted (le : α → α → Bool) : List α → α → List α
  | [], x => [x]
  | y :: ys, x => if le y x then y :: insertSorted le ys x else x :: y :: ys

def stableSort (le : α → α → Bool) (l : List α) : List α :=
  l.foldl (insertSorted le) []

/-! ## Connection summaries and the activity breakdown -/

/-- One element of the `connections` list. -/
structure ConnectionSummary where
  ip : String
  service : String
  category : String
  packets : Nat
  bytes : Nat
  ports : List Nat
deriving Repr, DecidableEq

/-- The body of the `for ip, stats in sorted(...)` loop: resolve service
("Unknown" when `identify_service` returns none), categorize, copy the
counters, sort the port set ascending. -/
def mkConnection (e : String × DestStats) : ConnectionSummary :=
  let service := (identify_service e.1).getD "Unknown"
  ⟨e.1, service, categorize_activity service, e.2.packets, e.2.bytes,
   stableSort (fun a b => a ≤ b) e.2.ports⟩

/-- All connection summaries, ranked by descending byte count
(`sorted(ip_stats.items(), key=lambda x: x[1]["bytes"], reverse=True)`),
before the top-20 truncation. -/
def rankedConnections (packets : List FlowRecord) : List ConnectionSummary :=
  (stableSort (fun a b => b.2.bytes ≤ a.2.bytes) (aggregate packets)).map mkConnection

/-- `defaultdict(int)` accumulation `category_bytes[conn["category"]] += conn["bytes"]`. -/
def dictAddNat (m : List (String × Nat)) (k : String) (v : Nat) : List (String × Nat) :=
  if m.any (fun e => e.1 = k) then m.map (fun e => if e.1 = k then (k, e.2 + v) else e)
  else m ++ [(k, v)]

def category_bytes (conns : List ConnectionSummary) : List (String × Nat) :=
  conns.foldl (fun m c => dictAddNat m c.category c.bytes) []

/-- `total_bytes = sum(c["bytes"] for c in connections)` (over ALL
connections, not the truncated list). -/
def totalBytesOf (conns : List ConnectionSummary) : Nat :=
  conns.foldl (fun acc c => acc + c.bytes) 0

/-- Round-half-to-even of the exact rational `100 * b / total`, modelling
`f"{b / total * 100:.0f}"`; coincides with the source's binary floating
point whenever the ratio is exactly representable.  Requires `0 < total`
at use sites. -/
def formatPct (b total : Nat) : Nat :=
  let q := 100 * b
  let n := q / total
  let r := q % total
  if 2 * r < total then n
  else if total < 2 * r then n + 1
  else if n % 2 = 0 then n else n + 1

/-- The `activity_parts` list: categories sorted by descending byte sum
(stable on ties), kept only when `bytes_count > 0 and total_bytes > 0 and
pct > 1` (on exact rationals, `pct > 1` is `100 * bytes > total`),
rendered as `"<category>: <pct>%"`. -/
def activityParts (conns : List ConnectionSummary) : List String :=
  (stableSort (fun a b => b.2 ≤ a.2) (category_bytes conns)).filterMap
    (fun cb =>
      if 0 < cb.2 && 0 < totalBytesOf conns && totalBytesOf conns < 100 * cb.2 then
        some (cb.1 ++ ": " ++ toString (formatPct cb.2 (totalBytesOf conns)) ++ "%")
      else none)

/-- `" | ".join(activity_parts) if activity_parts else "Minimal activity"`. -/
def activity_summary_of (conns : List ConnectionSummary) : String :=
  if (activityParts conns).isEmpty then "Minimal activity"
  else String.intercalate " | " (activityParts conns)

/-! ## The summary artifact -/

/-- `TrafficSummary` minus the `generated_at` timestamp (wall-clock
nondeterminism, asserted by no claim). -/
structure TrafficSummary where
  total_packets : Nat
  total_bytes : Nat
  unique_destinations : Nat
  connections : List ConnectionSummary
  activity_summary : String
deriving Repr, DecidableEq

/-- The fixed summary of the `if not packets` branch. -/
def emptySummary : TrafficSummary :=
  ⟨0, 0, 0, [], "No traffic captured"⟩

/-- `summarize_traffic`. -/
def summarize_traffic (packets : List FlowRecord) : TrafficSummary :=
  if packets.isEmpty then emptySummary
  else
    ⟨packets.length, totalBytesOf (rankedConnections packets), (aggregate packets).length,
     (rankedConnections packets).take 20, activity_summary_of (rankedConnections packets)⟩

/-! ## Capture adapter and pipeline -/

/-- `capture_traffic`: the external tshark process either fails to start —
the `except` branch logs and falls through to `return packets`, which is
still the initial empty list (`none` here) — or yields a finite sequence
of output lines within the deadline (`some lines`), each parsed by the
loop body, rejected lines contributing nothing. -/
def capture_traffic (started : Option (List String)) : List FlowRecord :=
  match started with
  | none => []
  | some lines => lines.filterMap parse_line

/-- The capture-then-summarize composition performed by `main` (the
artifact write and progress printing carry no further data content). -/
def run_pipeline (started : Option (List String)) : TrafficSummary :=
  summarize_traffic (capture_traffic started)

/-! ## Concrete inputs used by the theorems -/

/-- The flow line quoted verbatim in the source's parsing comment, with the
elided IPv6 destination written out. -/
def sampleLine : String :=
  "    1 0.000000000 fd42:42:42::2 → 2a03:2880:f003:c07:face:b00c:0:35 UDP 160 54148 → 443 Len=112"

/-- Three outbound packets whose byte shares are 37.5%, 37.5% and 25% of
256 — every ratio is exactly representable in binary floating point, so
`formatPct` agrees with the source's float formatting here. -/
def tiePkts : List FlowRecord :=
  [⟨"10.66.66.2", "1.1.1.1", 443, "UDP", 96⟩,
   ⟨"10.66.66.2", "104.18.5.5", 443, "TCP", 96⟩,
   ⟨"10.66.66.2", "8.8.8.8", 53, "UDP", 64⟩]

/-- Twenty-one outbound packets to distinct destinations: twenty
unrecognized ones of 1000 bytes each and one 500-byte packet to an OpenAI
address, which ranks 21st and is therefore dropped from the output list. -/
def bigBatch : List FlowRecord :=
  ((List.range 20).map (fun i => ⟨"10.66.66.2", "8.8.8." ++ toString (i + 1), 443, "TCP", 1000⟩)) ++
    [⟨"10.66.66.2", "104.18.5.5", 443, "TCP", 500⟩]

/-- One outbound packet and one return packet (source outside the
outbound prefixes). -/
def mixedBatch : List FlowRecord :=
  [⟨"10.66.66.2", "1.1.1.1", 443, "UDP", 64⟩,
   ⟨"1.1.1.1", "10.66.66.2", 0, "UDP", 80⟩]

/-! ## C1: signature-table order and the duplicate "52." key -/

/-- C1 (counterexample): on an address matching the twice-declared
pattern "52.", `identify_service` does NOT return the earlier-declared
service name "Microsoft/Azure"; the dict stored the later value. -/
theorem identify_service_earlier_duplicate_loses :
    identify_service "52.84.3.7" = some "Amazon AWS (shared with MS)" ∧
    ¬ identify_service "52.84.3.7" = some "Microsoft/Azure" := by
  decide

/-- C1 (amended): `identify_service` scans the dict the interpreter built
from the literal — keys in first-occurrence order, each carrying its
LAST-declared value — and returns the first matching pattern's service.
Among distinct patterns the earlier-declared one wins ("17.157.240.5"
matches "157.240.", "17." and "40." but resolves to the Meta entry), but
for the duplicate "52." key the later declaration's value "Amazon AWS
(shared with MS)" overrides the earlier "Microsoft/Azure", which is the
dead entry. -/
theorem identify_service_dict_semantics :
    identify_service "52.84.3.7" = some "Amazon AWS (shared with MS)" ∧
    identify_service "17.157.240.5" = some "Meta (Facebook/Instagram/WhatsApp)" ∧
    (SERVICE_SIGNATURES.filter (fun e => e.1 = "52.")).length = 1 ∧
    List.lookup "52." SERVICE_SIGNATURES = some "Amazon AWS (shared with MS)" ∧
    List.lookup "52." SERVICE_SIGNATURES_decl = some "Microsoft/Azure" := by
  decide

/-! ## C2: the empty-summary terminal state -/

/-- A batch none of whose packets is outbound leaves any accumulator of
the grouping fold unchanged. -/
theorem foldl_aggregate_const (ps : List FlowRecord) (init : List (String × DestStats))
    (h : ∀ p ∈ ps, is_outbound p.src_ip = false) :
    ps.foldl
      (fun m pkt => if is_outbound pkt.src_ip then updateStats m pkt.dst_ip pkt.size pkt.dst_port else m)
      init = init := by
  induction ps generalizing init with
  | nil => rfl
  | cons p ps ih =>
    have hp : is_outbound p.src_ip = false := h p (List.mem_cons_self p ps)
    have step :
        (if is_outbound p.src_ip then updateStats init p.dst_ip p.size p.dst_port else init) = init := by
      simp [hp]
    rw [List.foldl_cons, step]
    exact ih init (fun q hq => h q (List.mem_cons_of_mem p hq))

theorem aggregate_of_no_outbound (ps : List FlowRecord)
    (h : ∀ p ∈ ps, is_outbound p.src_ip = false) : aggregate ps = [] :=
  foldl_aggregate_const ps [] h

/-- C2 (counterexample): a singleton batch whose only record is not
outbound is not mapped to the fixed empty summary: the packet count is 1
and the activity text is "Minimal activity", not "No traffic captured". -/
theorem summarize_unaggregated_not_empty_summary :
    (summarize_traffic [⟨"8.8.8.8", "1.2.3.4", 0, "TCP", 100⟩]).activity_summary ≠
      "No traffic captured" ∧
    (summarize_traffic [⟨"8.8.8.8", "1.2.3.4", 0, "TCP", 100⟩]).total_packets ≠ 0 := by
  decide

/-- C2 (amended): the fixed empty TrafficSummary (zero counts, empty
list, "No traffic captured") is emitted exactly for an EMPTY input batch;
a non-empty batch in which no record aggregates instead yields total
bytes 0, zero destinations, an empty connection list and activity text
"Minimal activity", with total_packets equal to the batch length. -/
theorem summarize_empty_vs_unaggregated (ps : List FlowRecord) :
    (ps = [] → summarize_traffic ps = emptySummary) ∧
    (ps ≠ [] → (∀ p ∈ ps, is_outbound p.src_ip = false) →
      summarize_traffic ps = ⟨ps.length, 0, 0, [], "Minimal activity"⟩) := by
  constructor
  · intro h; subst h; rfl
  · intro hne h
    have hagg : aggregate ps = [] := aggregate_of_no_outbound ps h
    have hemp : ps.isEmpty = false := by
      cases ps with
      | nil => exact absurd rfl hne
      | cons a l => rfl
    simp [summarize_traffic, hemp, rankedConnections, hagg, stableSort,
      totalBytesOf, activity_summary_of, activityParts, category_bytes]

/-- Witness for C2's amended theorem, at the empty batch and at the
counterexample batch. -/
theorem summarize_empty_vs_unaggregated_witness :
    summarize_traffic [] = emptySummary ∧
    summarize_traffic [⟨"8.8.8.8", "1.2.3.4", 0, "TCP", 100⟩] =
      ⟨1, 0, 0, [], "Minimal activity"⟩ :=
  ⟨(summarize_empty_vs_unaggregated []).1 rfl,
   (summarize_empty_vs_unaggregated [⟨"8.8.8.8", "1.2.3.4", 0, "TCP", 100⟩]).2
     (by decide) (by decide)⟩

/-! ## C3: which arrow the port is read from -/

/-- C3 (code evaluated at the failing input): on the very line format the
source documents, the port search `→\s*(\d+)` matches at the FIRST arrow
of the line — the one between source and destination address — so the
recorded destination port is 2, the leading digit run of the destination
address "2a03:...", not 443 from the later "54148 → 443" pair. -/
theorem parse_line_port_from_destination_digits :
    parse_line sampleLine =
      some ⟨"fd42:42:42::2", "2a03:2880:f003:c07:face:b00c:0:35", 2, "UDP", 160⟩ ∧
    searchPort sampleLine.data = some 2 ∧
    ¬ (parse_line sampleLine).map (fun r => r.dst_port) = some 443 := by
  decide

/-! ## C4: the Cloudflare DNS end-to-end scenario -/

/-- C4 (counterexample): the single ConnectionSummary produced for one
outbound UDP packet of 64 bytes to "1.1.1.1" carries category "cloud",
not "other" — the keyword "cloudflare" of the "cloud" category is a
substring of the lowercased service name "cloudflare dns". -/
theorem cloudflare_dns_not_other :
    ((summarize_traffic [⟨"10.66.66.2", "1.1.1.1", 443, "UDP", 64⟩]).connections.map
      (fun c => c.category)) = ["cloud"] ∧
    ¬ ((summarize_traffic [⟨"10.66.66.2", "1.1.1.1", 443, "UDP", 64⟩]).connections.map
      (fun c => c.category)) = ["other"] := by
  decide

/-- C4 (amended): one outbound record to the Cloudflare DNS address
"1.1.1.1", protocol UDP, size 64, yields exactly one ConnectionSummary
with service "Cloudflare DNS", category "cloud", packet count 1 and byte
count 64 (and the full summary around it). -/
theorem cloudflare_dns_scenario :
    summarize_traffic [⟨"10.66.66.2", "1.1.1.1", 443, "UDP", 64⟩] =
      ⟨1, 64, 1, [⟨"1.1.1.1", "Cloudflare DNS", "cloud", 1, 64, [443]⟩], "cloud: 100%"⟩ := by
  decide

/-! ## C8: capture-start failure degrades to the empty summary -/

/-- C8: when the capture facility cannot be started, the adapter yields
zero records and the pipeline still completes with the valid
empty-traffic summary instead of aborting. -/
theorem capture_failure_degrades_gracefully :
    capture_traffic none = [] ∧ run_pipeline none = emptySummary :=
  ⟨rfl, rfl⟩

/-! ## C5: the parser's acceptance and rejection behaviour -/

/-- C5: a line on which both mandatory extractions succeed is parsed into
a record whose source, destination, protocol and size are exactly the
captured groups (the port being the opportunistic third search, default
0); a line missing the address pair or missing the protocol-tag-plus-size
pair is rejected, and a rejected line contributes nothing to the captured
batch.  Totality of `parse_line` is the embedding of "never raises". -/
theorem parse_line_spec (line : String) :
    (∀ s d p n, searchAddrPair line.data = some (s, d) →
      searchProtoSize line.data = some (p, n) →
        parse_line line = some ⟨s, d, (searchPort line.data).getD 0, p, n⟩) ∧
    (searchAddrPair line.data = none → parse_line line = none) ∧
    (searchProtoSize line.data = none → parse_line line = none) ∧
    (∀ rest, parse_line line = none →
      capture_traffic (some (line :: rest)) = capture_traffic (some rest)) := by
  refine ⟨?_, ?_, ?_, ?_⟩
  · intro s d p n hsd hpn
    simp [parse_line, hsd, hpn]
  · intro h
    simp [parse_line, h]
  · intro h
    cases hsd : searchAddrPair line.data with
    | none => simp [parse_line, hsd]
    | some pr =>
      cases pr with
      | mk s d => simp [parse_line, hsd, h]
  · intro rest h
    simp [capture_traffic, List.filterMap_cons, h]

/-- Witness for C5, at an accepted line (both groups captured, port taken
from the first arrow-digits occurrence) and at a rejected line. -/
theorem parse_line_spec_witness :
    parse_line "10.66.66.2 → 1.1.1.1 UDP 64 5353 → 443" =
      some ⟨"10.66.66.2", "1.1.1.1", 1, "UDP", 64⟩ ∧
    parse_line "hello world" = none := by
  constructor
  · exact ((parse_line_spec "10.66.66.2 → 1.1.1.1 UDP 64 5353 → 443").1
      "10.66.66.2" "1.1.1.1" "UDP" 64 (by decide) (by decide)).trans (by decide)
  · exact (parse_line_spec "hello world").2.1 (by decide)

/-! ## C9: additivity of the aggregation -/

/-- C9: for one destination, two outbound records of sizes `a` and `b`
produce the same byte total as a single record of size `a + b`; the
packet count stays per-record (2 against 1, never merged); and the port
set is the union of the records' ports, duplicates collapsing. -/
theorem aggregation_additive (src dst pr1 pr2 : String) (a b p q : Nat)
    (h : is_outbound src = true) :
    aggregate [⟨src, dst, p, pr1, a⟩, ⟨src, dst, q, pr2, b⟩] =
      [(dst, ⟨2, a + b, addPort [p] q⟩)] ∧
    aggregate [⟨src, dst, p, pr1, a + b⟩] = [(dst, ⟨1, a + b, [p]⟩)] ∧
    aggregate [⟨src, dst, p, pr1, a⟩, ⟨src, dst, p, pr2, b⟩] =
      [(dst, ⟨2, a + b, [p]⟩)] := by
  refine ⟨?_, ?_, ?_⟩ <;> simp [aggregate, h, updateStats, addPort]

/-- Witness for C9 at concrete ports and sizes. -/
theorem aggregation_additive_witness :
    aggregate [⟨"10.66.66.2", "1.2.3.4", 80, "TCP", 3⟩, ⟨"10.66.66.2", "1.2.3.4", 443, "UDP", 4⟩] =
      [("1.2.3.4", ⟨2, 3 + 4, addPort [80] 443⟩)] ∧
    aggregate [⟨"10.66.66.2", "1.2.3.4", 80, "TCP", 3 + 4⟩] = [("1.2.3.4", ⟨1, 3 + 4, [80]⟩)] ∧
    aggregate [⟨"10.66.66.2", "1.2.3.4", 80, "TCP", 3⟩, ⟨"10.66.66.2", "1.2.3.4", 80, "UDP", 4⟩] =
      [("1.2.3.4", ⟨2, 3 + 4, [80]⟩)] :=
  aggregation_additive "10.66.66.2" "1.2.3.4" "TCP" "UDP" 3 4 80 443 (by decide)

/-! ## Membership through `stableSort` -/

theorem mem_insertSorted {α : Type _} (le : α → α → Bool) (l : List α) (x a : α) :
    a ∈ insertSorted le l x ↔ a ∈ l ∨ a = x := by
  induction l with
  | nil => simp [insertSorted]
  | cons y ys ih =>
    cases hle : le y x with
    | true =>
      have hstep : insertSorted le (y :: ys) x = y :: insertSorted le ys x := by
        simp [insertSorted, hle]
      rw [hstep, List.mem_cons, ih, List.mem_cons]
      tauto
    | false =>
      have hstep : insertSorted le (y :: ys) x = x :: y :: ys := by
        simp [insertSorted, hle]
      rw [hstep, List.mem_cons, List.mem_cons]
      tauto

theorem mem_stableSort_aux {α : Type _} (le : α → α → Bool) (l : List α) (acc : List α) (a : α) :
    a ∈ l.foldl (insertSorted le) acc ↔ a ∈ acc ∨ a ∈ l := by
  induction l generalizing acc with
  | nil => simp
  | cons x xs ih =>
    rw [List.foldl_cons, ih, mem_insertSorted]
    simp only [List.mem_cons]
    tauto

theorem mem_stableSort {α : Type _} (le : α → α → Bool) (l : List α) (a : α) :
    a ∈ stableSort le l ↔ a ∈ l := by
  simp [stableSort, mem_stableSort_aux]

/-! ## C7: form of the activity breakdown text -/

/-- C7 (counterexample): three categories with exact byte shares 37.5%,
37.5% and 25% display as 38%, 38% and 25% — rounded percentages summing
to 101, strictly more than 100. -/
theorem breakdown_percent_sum_exceeds_100 :
    (summarize_traffic tiePkts).activity_summary = "cloud: 38% | ai: 38% | other: 25%" ∧
    100 < 38 + 38 + 25 := by
  decide

/-- C7 (amended): every fragment of the breakdown comes from a category
whose byte count is positive and whose share strictly exceeds 1% of total
bytes — so categories at or below 1% never appear — and is formatted as
"category: percent%" with round-half-to-even; fragments are joined with
" | " after the descending sort on byte sums; when no category qualifies
the text is exactly "Minimal activity".  The displayed percentages need
NOT sum to at most 100%: each share is rounded independently, and the
concrete batch below displays 38% + 38% + 25% = 101%. -/
theorem breakdown_text_spec :
    (∀ conns : List ConnectionSummary, ∀ s ∈ activityParts conns,
      ∃ cb ∈ category_bytes conns, 100 * cb.2 > totalBytesOf conns ∧ 0 < cb.2 ∧
        s = cb.1 ++ ": " ++ toString (formatPct cb.2 (totalBytesOf conns)) ++ "%") ∧
    (∀ conns : List ConnectionSummary, activityParts conns = [] →
      activity_summary_of conns = "Minimal activity") ∧
    (∀ conns : List ConnectionSummary, activityParts conns ≠ [] →
      activity_summary_of conns = String.intercalate " | " (activityParts conns)) ∧
    (summarize_traffic tiePkts).activity_summary = "cloud: 38% | ai: 38% | other: 25%" := by
  refine ⟨?_, ?_, ?_, ?_⟩
  · intro conns s hs
    unfold activityParts at hs
    rcases List.mem_filterMap.mp hs with ⟨cb, hmem, hf⟩
    rw [mem_stableSort] at hmem
    by_cases hc :
        (0 < cb.2 && 0 < totalBytesOf conns && totalBytesOf conns < 100 * cb.2) = true
    · rw [if_pos hc] at hf
      simp only [Bool.and_eq_true, decide_eq_true_eq] at hc
      exact ⟨cb, hmem, hc.2, hc.1.1, (Option.some.inj hf).symm⟩
    · rw [if_neg hc] at hf
      exact absurd hf (by simp)
  · intro conns h
    unfold activity_summary_of
    rw [h]
    rfl
  · intro conns h
    unfold activity_summary_of
    have : (activityParts conns).isEmpty = false := by
      cases hp : activityParts conns with
      | nil => exact absurd hp h
      | cons a l => rfl
    rw [this]
    rfl
  · decide

/-- Witness for C7's amended theorem: the qualifying category behind the
fragment "cloud: 38%", and both branches of the Minimal-activity rule. -/
theorem breakdown_text_spec_witness :
    (∃ cb ∈ category_bytes (rankedConnections tiePkts),
      100 * cb.2 > totalBytesOf (rankedConnections tiePkts) ∧ 0 < cb.2 ∧
        "cloud: 38%" = cb.1 ++ ": " ++
          toString (formatPct cb.2 (totalBytesOf (rankedConnections tiePkts))) ++ "%") ∧
    activity_summary_of [] = "Minimal activity" ∧
    activity_summary_of (rankedConnections tiePkts) =
      String.intercalate " | " (activityParts (rankedConnections tiePkts)) :=
  ⟨breakdown_text_spec.1 (rankedConnections tiePkts) "cloud: 38%" (by decide),
   breakdown_text_spec.2.1 [] (by decide),
   breakdown_text_spec.2.2.1 (rankedConnections tiePkts) (by decide)⟩

/-! ## C6: top-20 truncation against full statistics -/

/-- C6: the emitted connection list is the ranked list truncated to its
first 20 entries (hence never longer than 20), while the activity
breakdown and the byte total are computed from ALL ranked connections.
In the 21-destination batch `bigBatch`, all 20 retained connections are
category "other", yet the breakdown still shows "ai: 2%" contributed by
the dropped 21st connection, and the destination count is 21. -/
theorem connections_truncated_stats_full (ps : List FlowRecord) :
    (summarize_traffic ps).connections.length ≤ 20 ∧
    (ps ≠ [] →
      (summarize_traffic ps).connections = (rankedConnections ps).take 20 ∧
      (summarize_traffic ps).activity_summary = activity_summary_of (rankedConnections ps) ∧
      (summarize_traffic ps).total_bytes = totalBytesOf (rankedConnections ps)) ∧
    ((summarize_traffic bigBatch).connections.length = 20 ∧
      (summarize_traffic bigBatch).connections.all (fun c => c.category = "other") = true ∧
      (summarize_traffic bigBatch).unique_destinations = 21 ∧
      (summarize_traffic bigBatch).activity_summary = "other: 98% | ai: 2%") := by
  refine ⟨?_, ?_, ?_⟩
  · by_cases hemp : ps.isEmpty = true
    · simp [summarize_traffic, hemp, emptySummary]
    · have hemp' : ps.isEmpty = false := by
        cases hb : ps.isEmpty with
        | false => rfl
        | true => exact absurd hb hemp
      have hsum : (summarize_traffic ps).connections = (rankedConnections ps).take 20 := by
        simp [summarize_traffic, hemp']
      rw [hsum, List.length_take]
      omega
  · intro hne
    have hemp : ps.isEmpty = false := by
      cases ps with
      | nil => exact absurd rfl hne
      | cons a l => rfl
    simp [summarize_traffic, hemp]
  · decide

/-- Witness for C6 at a one-packet batch. -/
theorem connections_truncated_stats_full_witness :
    (summarize_traffic [⟨"10.66.66.2", "8.8.8.8", 53, "UDP", 10⟩]).connections =
      (rankedConnections [⟨"10.66.66.2", "8.8.8.8", 53, "UDP", 10⟩]).take 20 :=
  ((connections_truncated_stats_full [⟨"10.66.66.2", "8.8.8.8", 53, "UDP", 10⟩]).2.1
    (by decide)).1

/-! ## C10: total_packets counts every parsed record -/

theorem aggregate_foldl_filter (ps : List FlowRecord) (init : List (String × DestStats)) :
    ps.foldl
      (fun m pkt => if is_outbound pkt.src_ip then updateStats m pkt.dst_ip pkt.size pkt.dst_port else m)
      init =
    (ps.filter (fun p => is_outbound p.src_ip)).foldl
      (fun m pkt => if is_outbound pkt.src_ip then updateStats m pkt.dst_ip pkt.size pkt.dst_port else m)
      init := by
  induction ps generalizing init with
  | nil => rfl
  | cons p ps ih =>
    by_cases hp : is_outbound p.src_ip = true
    · have hf : List.filter (fun q => is_outbound q.src_ip) (p :: ps) =
          p :: List.filter (fun q => is_outbound q.src_ip) ps := by
        simp [List.filter_cons, hp]
      rw [List.foldl_cons, if_pos hp, hf, List.foldl_cons, if_pos hp]
      exact ih _
    · have hp' : is_outbound p.src_ip = false := by
        cases hb : is_outbound p.src_ip with
        | false => rfl
        | true => exact absurd hb hp
      have hf : List.filter (fun q => is_outbound q.src_ip) (p :: ps) =
          List.filter (fun q => is_outbound q.src_ip) ps := by
        simp [List.filter_cons, hp']
      rw [List.foldl_cons, if_neg hp, hf]
      exact ih _

/-- The grouping loop ignores non-outbound records: aggregating a batch
equals aggregating its outbound-filtered part. -/
theorem aggregate_filter_outbound (ps : List FlowRecord) :
    aggregate ps = aggregate (ps.filter (fun p => is_outbound p.src_ip)) :=
  aggregate_foldl_filter ps []

/-- C10: for a non-empty parsed batch, `total_packets` is the length of
the WHOLE batch — non-outbound records included — while the connection
list, the byte total and the destination count are computed from the
outbound-filtered records only; in `mixedBatch` (one outbound record, one
return record) the packet total 2 therefore exceeds the per-connection
packet sum 1. -/
theorem total_packets_counts_all_records (ps : List FlowRecord) (h : ps ≠ []) :
    (summarize_traffic ps).total_packets = ps.length ∧
    (summarize_traffic ps).connections =
      (rankedConnections (ps.filter (fun p => is_outbound p.src_ip))).take 20 ∧
    (summarize_traffic ps).total_bytes =
      totalBytesOf (rankedConnections (ps.filter (fun p => is_outbound p.src_ip))) ∧
    (summarize_traffic ps).unique_destinations =
      (aggregate (ps.filter (fun p => is_outbound p.src_ip))).length ∧
    (summarize_traffic mixedBatch).total_packets >
      ((summarize_traffic mixedBatch).connections.map (fun c => c.packets)).sum := by
  have hemp : ps.isEmpty = false := by
    cases ps with
    | nil => exact absurd rfl h
    | cons a l => rfl
  have hagg := aggregate_filter_outbound ps
  refine ⟨?_, ?_, ?_, ?_, ?_⟩
  · simp [summarize_traffic, hemp]
  · simp [summarize_traffic, hemp, rankedConnections, hagg]
  · simp [summarize_traffic, hemp, totalBytesOf, rankedConnections, hagg]
  · simp [summarize_traffic, hemp, hagg]
  · decide

/-- Witness for C10 at `mixedBatch`. -/
theorem total_packets_counts_all_records_witness :
    (summarize_traffic mixedBatch).total_packets = mixedBatch.length :=
  (total_packets_counts_all_records mixedBatch (by decide)).1

end TrafficCapture
